import Mathlib

/-!
Verification of the projector API backend (cache-and-fetch layer in
`ctaapiService.js`, HTTP handlers and file storage in `server.js`) against its
natural-language specification.  The JavaScript code is shallowly embedded:
JSON/JavaScript values become the inductive type `JsValue`, the mutable cache
map and the file-backed store become association lists threaded through the
operations, the ambient clock becomes explicit `now` parameters, and a thrown
JavaScript exception becomes `Except.error`.
-/

set_option maxHeartbeats 1000000

namespace Projector

/-- JavaScript values as they appear in this code base: JSON data plus the
`undefined` value produced by reading an absent property.  Objects keep their
key order (as JavaScript objects do). -/
inductive JsValue where
  | null
  | undefined
  | bool (b : Bool)
  | num (n : Int)
  | str (s : String)
  | arr (elems : List JsValue)
  | obj (fields : List (String × JsValue))

/-- JavaScript truthiness of a value (`if (v)` / `v ? _ : _` / `v || _`).
Numbers are modelled as integers, so `NaN` does not arise. -/
def truthy : JsValue → Bool
  | .null => false
  | .undefined => false
  | .bool b => b
  | .num n => n != 0
  | .str s => s != ""
  | .arr _ => true
  | .obj _ => true

/-- `Array.isArray(v)`. -/
def isArray : JsValue → Bool
  | .arr _ => true
  | _ => false

/-- First binding of a key in an object's field list. -/
def lookupProp : List (String × JsValue) → String → Option JsValue
  | [], _ => none
  | (k', v) :: rest, k => if k' = k then some v else lookupProp rest k

/-- Property access `v.k`: throws a `TypeError` on `null`/`undefined`
(modelled as `Except.error`), yields `undefined` for an absent key or for a
primitive receiver, and the stored value for a present key. -/
def getProp : JsValue → String → Except Unit JsValue
  | .null, _ => .error ()
  | .undefined, _ => .error ()
  | .obj fs, k =>
    match lookupProp fs k with
    | some v => .ok v
    | none => .ok .undefined
  | _, _ => .ok .undefined

/-- JavaScript `a || b`: `a` when truthy, otherwise `b`. -/
def jsOr (a b : JsValue) : JsValue :=
  if truthy a then a else b

/-- Set a key in an object's field list: overwrite in place when present
(keeping its position, as JavaScript object assignment does), else append. -/
def setProp : List (String × JsValue) → String → JsValue → List (String × JsValue)
  | [], k, v => [(k, v)]
  | (k', v') :: rest, k, v =>
    if k' = k then (k, v) :: rest else (k', v') :: setProp rest k v

/-- `.slice(0, 5).map(f)`-style element handling requires an actual array;
any other receiver makes the JavaScript throw (modelled as `Except.error`). -/
def asArray : JsValue → Except Unit (List JsValue)
  | .arr xs => .ok xs
  | _ => .error ()

/-- `JSON.parse(JSON.stringify(v))` on JSON-serialisable data: object entries
whose value is `undefined` are dropped, `undefined` array elements become
`null`, everything else survives unchanged. -/
def jsonRoundTrip : JsValue → JsValue
  | .null => .null
  | .undefined => .undefined
  | .bool b => .bool b
  | .num n => .num n
  | .str s => .str s
  | .arr xs => .arr (rtArr xs)
  | .obj fs => .obj (rtObj fs)
where
  rtArr : List JsValue → List JsValue
    | [] => []
    | x :: rest =>
      (match x with
       | .undefined => JsValue.null
       | v => jsonRoundTrip v) :: rtArr rest
  rtObj : List (String × JsValue) → List (String × JsValue)
    | [] => []
    | (k, v) :: rest =>
      match v with
      | .undefined => rtObj rest
      | v => (k, jsonRoundTrip v) :: rtObj rest

/-- String conversion used by template-literal interpolation and string
concatenation (`'profile-' + id + '.json'`). -/
def jsToString : JsValue → String
  | .null => "null"
  | .undefined => "undefined"
  | .bool true => "true"
  | .bool false => "false"
  | .num n => toString n
  | .str s => s
  | .arr xs => joinElems xs
  | .obj _ => "[object Object]"
where
  /-- `Array.prototype.toString` joins with commas, rendering `null` and
  `undefined` elements as the empty string. -/
  elemStr : JsValue → String
    | .null => ""
    | .undefined => ""
    | v => jsToString v
  joinElems : List JsValue → String
    | [] => ""
    | [x] => elemStr x
    | x :: rest => elemStr x ++ "," ++ joinElems rest

/-! ## Cache-and-fetch layer (`ctaapiService.js`) -/

/-- One entry of `this.cache`: raw payload plus the `Date.now()` at which it
was stored. -/
structure CacheEntry where
  data : JsValue
  timestamp : Nat

/-- The `this.cache` map, keyed by cache key (`'transit' | 'events' | 'tasks'`). -/
abbrev Cache := List (String × CacheEntry)

/-- `Map.prototype.get`. -/
def cacheGet : Cache → String → Option CacheEntry
  | [], _ => none
  | (k', e) :: rest, k => if k' = k then some e else cacheGet rest k

/-- `Map.prototype.set`: overwrite an existing key in place, else append. -/
def cacheSet : Cache → String → CacheEntry → Cache
  | [], k, e => [(k, e)]
  | (k', e') :: rest, k, e =>
    if k' = k then (k, e) :: rest else (k', e') :: cacheSet rest k e

/-- `this.cacheTimeout = 5 * 60 * 1000` (five minutes in milliseconds). -/
def cacheTimeout : Nat := 5 * 60 * 1000

/-- Result of one `fetchWithCache` call: the returned payload, the cache after
the call, and whether an upstream request (`makeRequest`) was issued. -/
structure FetchResult where
  result : JsValue
  cache : Cache
  requested : Bool

/-- `fetchWithCache(endpoint, cacheKey)`.  `now` is `Date.now()` for this
call; `upstream` is the outcome `makeRequest` would produce if issued
(`.ok` a parsed JSON payload, `.error` for network error, timeout, or a body
that fails `JSON.parse`).  A fresh cache entry short-circuits the request;
on request failure the entry captured at the start of the call (fresh or
expired) is served, and `null` is returned when there is none. -/
def fetchWithCache (cache : Cache) (cacheKey : String) (now : Nat)
    (upstream : Except Unit JsValue) : FetchResult :=
  match cacheGet cache cacheKey with
  | some cached =>
    if now - cached.timestamp < cacheTimeout then
      { result := cached.data, cache := cache, requested := false }
    else
      match upstream with
      | .ok data =>
        { result := data, cache := cacheSet cache cacheKey ⟨data, now⟩, requested := true }
      | .error _ =>
        { result := cached.data, cache := cache, requested := true }
  | none =>
    match upstream with
    | .ok data =>
      { result := data, cache := cacheSet cache cacheKey ⟨data, now⟩, requested := true }
    | .error _ =>
      { result := JsValue.null, cache := cache, requested := true }

/-! ## Transformers -/

/-- The card shape produced by the transformers.  The placeholder branch sets
`content` and no `subtitle`/`lastUpdated`; the normal branch sets `subtitle`
and `lastUpdated` and no `content`. -/
structure CardData (α : Type) where
  title : String
  subtitle : Option String := none
  content : Option String := none
  items : List α
  lastUpdated : Option String := none

/-- One normalized transit item.  Field values stay JavaScript values: a
fallback chain like `stop.minutes_away || stop.minutesAway || 'N/A'` can
produce either a number or the default string. -/
structure TransitItem where
  route : JsValue
  destination : JsValue
  arrivalTime : JsValue
  minutes : JsValue

/-- One normalized event item. -/
structure EventItem where
  title : JsValue
  time : JsValue
  description : JsValue
  location : JsValue

/-- One normalized task item. -/
structure TaskItem where
  title : JsValue
  type : JsValue
  priority : JsValue
  completed : JsValue
  difficulty : JsValue

/-- The per-element body of `transformTransitData`'s `.map(stop => ...)`.
Property access on a `null`/`undefined` element throws. -/
def transitItemOf (stop : JsValue) : Except Unit TransitItem := do
  let route ← getProp stop "route"
  let destination ← getProp stop "destination"
  let at1 ← getProp stop "arrival_time"
  let at2 ← getProp stop "arrivalTime"
  let m1 ← getProp stop "minutes_away"
  let m2 ← getProp stop "minutesAway"
  .ok { route := jsOr route (.str "Unknown Route"),
        destination := jsOr destination (.str "Unknown Destination"),
        arrivalTime := jsOr at1 (jsOr at2 (.str "TBD")),
        minutes := jsOr m1 (jsOr m2 (.str "N/A")) }

/-- `transformTransitData(data)`.  `now` stands for the
`new Date().toISOString()` taken during the call. -/
def transformTransitData (data : JsValue) (now : String) :
    Except Unit (CardData TransitItem) :=
  if ¬ truthy data ∨ ¬ isArray data then
    .ok { title := "CTA Transit", content := some "Transit data unavailable", items := [] }
  else do
    let xs ← asArray data
    let items ← (xs.take 5).mapM transitItemOf
    .ok { title := "CTA Transit",
          subtitle := some ("Next " ++ toString items.length ++ " arrivals"),
          items := items,
          lastUpdated := some now }

/-- The per-element body of `transformEventsData`'s `.map(event => ...)`. -/
def eventItemOf (event : JsValue) : Except Unit EventItem := do
  let t1 ← getProp event "title"
  let t2 ← getProp event "summary"
  let s1 ← getProp event "start_time"
  let s2 ← getProp event "startTime"
  let s3 ← getProp event "start"
  let desc ← getProp event "description"
  let loc ← getProp event "location"
  .ok { title := jsOr t1 (jsOr t2 (.str "Untitled Event")),
        time := jsOr s1 (jsOr s2 (jsOr s3 (.str "TBD"))),
        description := jsOr desc (.str ""),
        location := jsOr loc (.str "") }

/-- `transformEventsData(data)`. -/
def transformEventsData (data : JsValue) (now : String) :
    Except Unit (CardData EventItem) :=
  if ¬ truthy data ∨ ¬ isArray data then
    .ok { title := "Calendar Events", content := some "No events available", items := [] }
  else do
    let xs ← asArray data
    let items ← (xs.take 5).mapM eventItemOf
    .ok { title := "Upcoming Events",
          subtitle := some (toString items.length ++ " events today"),
          items := items,
          lastUpdated := some now }

/-- The per-element body of `transformTasksData`'s `.map(task => ...)`. -/
def taskItemOf (task : JsValue) : Except Unit TaskItem := do
  let t1 ← getProp task "text"
  let t2 ← getProp task "title"
  let ty ← getProp task "type"
  let pr ← getProp task "priority"
  let co ← getProp task "completed"
  let di ← getProp task "difficulty"
  .ok { title := jsOr t1 (jsOr t2 (.str "Untitled Task")),
        type := jsOr ty (.str "todo"),
        priority := jsOr pr (.str "normal"),
        completed := jsOr co (.bool false),
        difficulty := jsOr di (.num 1) }

/-- `transformTasksData(data)`.  A truthy payload that is neither an array
nor carries an array under `tasks` reaches `.slice`/`.map` on a non-array and
throws. -/
def transformTasksData (data : JsValue) (now : String) :
    Except Unit (CardData TaskItem) :=
  if ¬ truthy data then
    .ok { title := "Habitica Tasks", content := some "Tasks unavailable", items := [] }
  else do
    let tasksVal ←
      if isArray data then pure data
      else do
        let t ← getProp data "tasks"
        pure (jsOr t (.arr []))
    let tasks ← asArray tasksVal
    let items ← (tasks.take 5).mapM taskItemOf
    let completedCount := (items.filter (fun task => truthy task.completed)).length
    .ok { title := "Habitica Tasks",
          subtitle := some (toString completedCount ++ "/" ++ toString items.length ++ " completed"),
          items := items,
          lastUpdated := some now }

/-! ## Aggregation -/

/-- The record returned by `getAllCardData`. -/
structure AllCardData where
  transit : CardData TransitItem
  events : CardData EventItem
  tasks : CardData TaskItem

/-- `getAllCardData()`.  The three `fetchWithCache` calls run under
`Promise.allSettled` on the shared cache, each touching only its own key
(`'transit'`, `'events'`, `'tasks'`); they are modelled as three calls
threaded through the cache.  `fetchWithCache` never rejects, so every settled
status is `fulfilled` and each transformer receives the corresponding fetch
result; a transformer that throws rejects the whole aggregate. -/
def getAllCardData (cache : Cache) (now : Nat) (nowIso : String)
    (upT upE upK : Except Unit JsValue) :
    Except Unit AllCardData × Cache :=
  let rT := fetchWithCache cache "transit" now upT
  let rE := fetchWithCache rT.cache "events" now upE
  let rK := fetchWithCache rE.cache "tasks" now upK
  (do
    let transit ← transformTransitData rT.result nowIso
    let events ← transformEventsData rE.result nowIso
    let tasks ← transformTasksData rK.result nowIso
    .ok { transit := transit, events := events, tasks := tasks },
   rK.cache)

/-! ## File storage (`server.js`, `fileStorage`) -/

/-- The data directory: file name to the JSON value stored in the file.
`writeFile` serialises with `JSON.stringify` and `readFile` parses, so values
are stored modulo `jsonRoundTrip`. -/
abbrev FileStore := List (String × JsValue)

/-- Look a file up by name. -/
def storeGet : FileStore → String → Option JsValue
  | [], _ => none
  | (k', v) :: rest, k => if k' = k then some v else storeGet rest k

/-- Replace a file's content, or create the file. -/
def storeSet : FileStore → String → JsValue → FileStore
  | [], k, v => [(k, v)]
  | (k', v') :: rest, k, v =>
    if k' = k then (k, v) :: rest else (k', v') :: storeSet rest k v

/-- Remove a file; removing an absent file is a no-op (`deleteFile` swallows
`ENOENT`).  A directory holds each name at most once, so deletion removes
every binding of the name. -/
def storeDel : FileStore → String → FileStore
  | [], _ => []
  | (k', v') :: rest, k =>
    if k' = k then storeDel rest k else (k', v') :: storeDel rest k

/-- `fileStorage.readFile(filename, null)`: parsed file content, or the
`null` default when the file does not exist. -/
def readFileJs (files : FileStore) (filename : String) : JsValue :=
  match storeGet files filename with
  | some v => v
  | none => .null

/-- `fileStorage.writeFile(filename, data)`: atomic replace of the file with
`JSON.stringify(data, null, 2)`; a later read parses it back, hence the
stored value is `jsonRoundTrip data`. -/
def writeFile (files : FileStore) (filename : String) (data : JsValue) : FileStore :=
  storeSet files filename (jsonRoundTrip data)

/-- `fileStorage.deleteFile(filename)`. -/
def deleteFile (files : FileStore) (filename : String) : FileStore :=
  storeDel files filename

/-! ## Request validation (`server.js`, `validation`)

The Joi schemas are modelled structurally: required/optional fields, type
checks, the `min` bounds, the `cards` default, and rejection of unknown keys
(Joi's default for these schemas).  Joi's string-to-number conversion and its
URI-format check on `config.apiUrl` are abstracted away (no claim depends on
them); the validated value is rebuilt field by field. -/

/-- A field read treating an explicit `undefined` like an absent key, as Joi
does. -/
def getOptProp (fs : List (String × JsValue)) (k : String) : Option JsValue :=
  match lookupProp fs k with
  | some .undefined => none
  | o => o

/-- `Joi.object({width: number.min(0).required, height: number.min(0).required,
cards: array.items(string).default([])})`. -/
def validateZoneSchema (v : JsValue) : Except String JsValue :=
  match v with
  | .obj fs =>
    if (fs.map Prod.fst).any (fun k => ¬ (k = "width" ∨ k = "height" ∨ k = "cards")) then
      .error "zone: key not allowed"
    else do
      let w ←
        match getOptProp fs "width" with
        | some (.num n) => if 0 ≤ n then Except.ok (JsValue.num n) else .error "width: min"
        | some _ => .error "width: must be a number"
        | none => .error "width: required"
      let h ←
        match getOptProp fs "height" with
        | some (.num n) => if 0 ≤ n then Except.ok (JsValue.num n) else .error "height: min"
        | some _ => .error "height: must be a number"
        | none => .error "height: required"
      let cards ←
        match getOptProp fs "cards" with
        | none => Except.ok (JsValue.arr [])
        | some (.arr xs) =>
          if xs.all (fun x => match x with | .str _ => true | _ => false) then
            Except.ok (JsValue.arr xs)
          else .error "cards: items must be strings"
        | some _ => .error "cards: must be an array"
      .ok (.obj [("width", w), ("height", h), ("cards", cards)])
  | _ => .error "zone: must be an object"

/-- `validation.profile.validate(body)`. -/
def validateProfile (v : JsValue) : Except String JsValue :=
  match v with
  | .obj fs =>
    if (fs.map Prod.fst).any (fun k => ¬ (k = "id" ∨ k = "name" ∨ k = "zones")) then
      .error "profile: key not allowed"
    else do
      let idFields ←
        match getOptProp fs "id" with
        | none => Except.ok ([] : List (String × JsValue))
        | some (.str s) => Except.ok [("id", JsValue.str s)]
        | some _ => .error "id: must be a string"
      let name ←
        match getOptProp fs "name" with
        | some (.str s) => if 1 ≤ s.length then Except.ok (JsValue.str s) else .error "name: min"
        | some _ => .error "name: must be a string"
        | none => .error "name: required"
      let zones ←
        match getOptProp fs "zones" with
        | some (.obj zfs) =>
          if (zfs.map Prod.fst).any (fun k => ¬ (k = "left" ∨ k = "center" ∨ k = "right")) then
            .error "zones: key not allowed"
          else do
            let zl ←
              match getOptProp zfs "left" with
              | some z => validateZoneSchema z
              | none => .error "left: required"
            let zc ←
              match getOptProp zfs "center" with
              | some z => validateZoneSchema z
              | none => .error "center: required"
            let zr ←
              match getOptProp zfs "right" with
              | some z => validateZoneSchema z
              | none => .error "right: required"
            Except.ok (JsValue.obj [("left", zl), ("center", zc), ("right", zr)])
        | some _ => .error "zones: must be an object"
        | none => .error "zones: required"
      .ok (.obj (idFields ++ [("name", name), ("zones", zones)]))
  | _ => .error "profile: must be an object"

/-- `validation.card.validate(body)`.  `config` allows unknown keys
(`unknown(true)`) and is returned as given once its known keys check out. -/
def validateCard (v : JsValue) : Except String JsValue :=
  match v with
  | .obj fs =>
    if (fs.map Prod.fst).any (fun k => ¬ (k = "id" ∨ k = "type" ∨ k = "config")) then
      .error "card: key not allowed"
    else do
      let idFields ←
        match getOptProp fs "id" with
        | none => Except.ok ([] : List (String × JsValue))
        | some (.str s) => Except.ok [("id", JsValue.str s)]
        | some _ => .error "id: must be a string"
      let ty ←
        match getOptProp fs "type" with
        | some (.str s) => Except.ok (JsValue.str s)
        | some _ => .error "type: must be a string"
        | none => .error "type: required"
      let cfg ←
        match getOptProp fs "config" with
        | some (.obj cfs) => do
          let _ ←
            match getOptProp cfs "apiUrl" with
            | none => Except.ok ()
            | some (.str _) => Except.ok ()
            | some _ => .error "apiUrl: must be a string"
          let _ ←
            match getOptProp cfs "refreshInterval" with
            | none => Except.ok ()
            | some (.num n) => if 1000 ≤ n then Except.ok () else .error "refreshInterval: min"
            | some _ => .error "refreshInterval: must be a number"
          Except.ok (JsValue.obj cfs)
        | some _ => .error "config: must be an object"
        | none => .error "config: required"
      .ok (.obj (idFields ++ [("type", ty), ("config", cfg)]))
  | _ => .error "card: must be an object"

/-- `validation.activeProfile.validate(body)`. -/
def validateActiveProfile (v : JsValue) : Except String JsValue :=
  match v with
  | .obj fs =>
    if (fs.map Prod.fst).any (fun k => ¬ k = "profileId") then
      .error "activeProfile: key not allowed"
    else
      match getOptProp fs "profileId" with
      | some (.str s) => .ok (.obj [("profileId", .str s)])
      | some _ => .error "profileId: must be a string"
      | none => .error "profileId: required"
  | _ => .error "activeProfile: must be an object"

/-! ## HTTP handlers (`server.js`) -/

/-- An HTTP response: status code and JSON body (`none` for the empty
`res.status(204).send()` body).  `res.json(v)` serialises `v`, so the body a
client observes is `jsonRoundTrip v`. -/
structure HttpResponse where
  status : Nat
  body : Option JsValue

/-- The `{error: msg}` bodies. -/
def errBody (msg : String) : JsValue := .obj [("error", .str msg)]

/-- `'profile-' + id + '.json'` for a path-parameter id. -/
def profileFileName (id : String) : String := "profile-" ++ id ++ ".json"

/-- `'card-' + id + '.json'` for a path-parameter id. -/
def cardFileName (id : String) : String := "card-" ++ id ++ ".json"

/-- The field list of a value known to be an object (the validators only
return objects). -/
def objFields : JsValue → List (String × JsValue)
  | .obj fs => fs
  | _ => []

/-- `GET /display/profiles/:id`. -/
def getProfileHandler (files : FileStore) (id : String) : HttpResponse :=
  let profile := readFileJs files (profileFileName id)
  if ¬ truthy profile then
    { status := 404, body := some (jsonRoundTrip (errBody "Profile not found")) }
  else
    { status := 200, body := some (jsonRoundTrip profile) }

/-- `{...value, id: req.params.id, updatedAt: new Date().toISOString()}`:
the validated body with the path-parameter id overwriting any body id and an
`updatedAt` stamp added. -/
def stampedEntity (value : JsValue) (id nowIso : String) : JsValue :=
  .obj (setProp (setProp (objFields value) "id" (.str id)) "updatedAt" (.str nowIso))

/-- `PUT /display/profiles/:id`: validate, overwrite `id` with the path
parameter, stamp `updatedAt`, write the file, echo the stored object. -/
def putProfileHandler (files : FileStore) (id : String) (body : JsValue)
    (nowIso : String) : HttpResponse × FileStore :=
  match validateProfile body with
  | .error msg => ({ status := 400, body := some (jsonRoundTrip (errBody msg)) }, files)
  | .ok value =>
    ({ status := 200, body := some (jsonRoundTrip (stampedEntity value id nowIso)) },
     writeFile files (profileFileName id) (stampedEntity value id nowIso))

/-- `active && active.profileId === req.params.id`: strict string comparison
of the pointer's `profileId` with the path parameter. -/
def propEqStr (v : JsValue) (k : String) (s : String) : Bool :=
  match getProp v k with
  | .ok (.str s') => s' == s
  | _ => false

/-- `DELETE /display/profiles/:id`. -/
def deleteProfileHandler (files : FileStore) (id : String) : HttpResponse × FileStore :=
  let profile := readFileJs files (profileFileName id)
  if ¬ truthy profile then
    ({ status := 404, body := some (jsonRoundTrip (errBody "Profile not found")) }, files)
  else
    let active := readFileJs files "activeProfile.json"
    if truthy active ∧ propEqStr active "profileId" id then
      ({ status := 400, body := some (jsonRoundTrip (errBody "Cannot delete active profile")) }, files)
    else
      ({ status := 204, body := none }, deleteFile files (profileFileName id))

/-- `GET /display/cards/:id`. -/
def getCardHandler (files : FileStore) (id : String) : HttpResponse :=
  let card := readFileJs files (cardFileName id)
  if ¬ truthy card then
    { status := 404, body := some (jsonRoundTrip (errBody "Card not found")) }
  else
    { status := 200, body := some (jsonRoundTrip card) }

/-- `PUT /display/cards/:id`. -/
def putCardHandler (files : FileStore) (id : String) (body : JsValue)
    (nowIso : String) : HttpResponse × FileStore :=
  match validateCard body with
  | .error msg => ({ status := 400, body := some (jsonRoundTrip (errBody msg)) }, files)
  | .ok value =>
    ({ status := 200, body := some (jsonRoundTrip (stampedEntity value id nowIso)) },
     writeFile files (cardFileName id) (stampedEntity value id nowIso))

/-- `DELETE /display/cards/:id`. -/
def deleteCardHandler (files : FileStore) (id : String) : HttpResponse × FileStore :=
  let card := readFileJs files (cardFileName id)
  if ¬ truthy card then
    ({ status := 404, body := some (jsonRoundTrip (errBody "Card not found")) }, files)
  else
    ({ status := 204, body := none }, deleteFile files (cardFileName id))

/-! ## UI profile composition (`server.js`) -/

/-- `zoneId.charAt(0).toUpperCase() + zoneId.slice(1)`. -/
def capitalizeFirst (s : String) : String :=
  match s.data with
  | [] => ""
  | c :: rest => String.mk (c.toUpper :: rest)

/-- The fixed `gridConfig` literal of `transformProfileForUI`. -/
def gridConfigJs : JsValue :=
  .obj [("columns", .str "400px 1fr 400px"),
        ("rows", .str "1fr"),
        ("areas", .arr [.arr [.str "left", .str "center", .str "right"]])]

/-- `Object.entries(v)`: throws on `null`/`undefined`; own enumerable entries
of an object; index entries for arrays and strings; empty for other
primitives. -/
def objEntries : JsValue → Except Unit (List (String × JsValue))
  | .null => .error ()
  | .undefined => .error ()
  | .obj fs => .ok fs
  | .arr xs => .ok (xs.enum.map (fun p => (toString p.1, p.2)))
  | .str s => .ok (s.data.enum.map (fun p => (toString p.1, JsValue.str (String.mk [p.2]))))
  | _ => .ok []

/-- `transformProfileForUI(profile)` (called with a truthy `profile`). -/
def transformProfileForUI (profile : JsValue) : Except Unit JsValue := do
  let zonesv ← getProp profile "zones"
  let entries ← objEntries zonesv
  let zones ← entries.mapM (fun zoneEntry => do
    let zoneId := zoneEntry.1
    let cardsv ← getProp zoneEntry.2 "cards"
    Except.ok (JsValue.obj
      [("id", .str zoneId),
       ("name", .str (capitalizeFirst zoneId ++ " Zone")),
       ("gridArea", .str zoneId),
       ("cards", jsOr cardsv (.arr []))]))
  let idv ← getProp profile "id"
  let namev ← getProp profile "name"
  .ok (.obj [("id", idv), ("name", namev), ("gridConfig", gridConfigJs),
             ("zones", .arr zones)])

/-- `getDefaultProfileForUI()`: the built-in UI profile served when no active
profile is set or the active pointer dangles. -/
def getDefaultProfileForUI : JsValue :=
  .obj
    [("id", .str "default-profile"),
     ("name", .str "Default Dashboard"),
     ("gridConfig", gridConfigJs),
     ("zones", .arr
       [.obj
         [("id", .str "left"),
          ("name", .str "Sidebar"),
          ("gridArea", .str "left"),
          ("cards", .arr
            [.obj
              [("id", .str "welcome-card"),
               ("type", .str "text"),
               ("config", .obj
                 [("title", .str "Welcome to Projector"),
                  ("content", .str "This is your dashboard. You can customize zones and add various card types to display different information."),
                  ("backgroundColor", .str "#f8f9fa"),
                  ("textColor", .str "#333")])],
             .obj
              [("id", .str "transit-card"),
               ("type", .str "transit"),
               ("config", .obj
                 [("title", .str "CTA Transit"),
                  ("content", .str "Loading transit data..."),
                  ("backgroundColor", .str "#fff3cd")])]])],
        .obj
         [("id", .str "center"),
          ("name", .str "Main Content"),
          ("gridArea", .str "center"),
          ("cards", .arr
            [.obj
              [("id", .str "events-card"),
               ("type", .str "events"),
               ("config", .obj
                 [("title", .str "Calendar Events"),
                  ("content", .str "Loading events..."),
                  ("backgroundColor", .str "#d1ecf1")])],
             .obj
              [("id", .str "activity-card"),
               ("type", .str "text"),
               ("config", .obj
                 [("title", .str "Recent Activity"),
                  ("content", .str "• Profile created successfully\\n• Dashboard initialized\\n• Sample cards loaded\\n• System ready for customization"),
                  ("backgroundColor", .str "#f8f9fa")])]])],
        .obj
         [("id", .str "right"),
          ("name", .str "Right Sidebar"),
          ("gridArea", .str "right"),
          ("cards", .arr
            [.obj
              [("id", .str "tasks-card"),
               ("type", .str "tasks"),
               ("config", .obj
                 [("title", .str "Habitica Tasks"),
                  ("content", .str "Loading tasks..."),
                  ("backgroundColor", .str "#d4edda")])],
             .obj
              [("id", .str "notifications-card"),
               ("type", .str "status"),
               ("config", .obj
                 [("title", .str "Notifications"),
                  ("items", .arr
                    [.obj [("label", .str "Welcome!"), ("status", .str "new"), ("color", .str "blue")],
                     .obj [("label", .str "Setup Complete"), ("status", .str "success"), ("color", .str "green")]])])]])]])]

/-! ## Card population (`populateCardsWithData`) -/

/-- `Option String` rendered as a JavaScript value inside an object literal
(an absent structure field reads as `undefined`). -/
def optStrJs : Option String → JsValue
  | some s => .str s
  | none => .undefined

/-- A normalized transit item as the object literal the transformer built. -/
def transitItemJs (it : TransitItem) : JsValue :=
  .obj [("route", it.route), ("destination", it.destination),
        ("arrivalTime", it.arrivalTime), ("minutes", it.minutes)]

/-- A normalized event item as an object. -/
def eventItemJs (it : EventItem) : JsValue :=
  .obj [("title", it.title), ("time", it.time),
        ("description", it.description), ("location", it.location)]

/-- A normalized task item as an object. -/
def taskItemJs (it : TaskItem) : JsValue :=
  .obj [("title", it.title), ("type", it.type), ("priority", it.priority),
        ("completed", it.completed), ("difficulty", it.difficulty)]

/-- The own enumerable entries contributed by `{...v}`: an object's fields,
index entries for arrays and strings, nothing for primitives (including
`null`/`undefined`, which spread without throwing). -/
def spreadFields : JsValue → List (String × JsValue)
  | .obj fs => fs
  | .arr xs => (xs.enum.map (fun p => (toString p.1, p.2)))
  | .str s => (s.data.enum.map (fun p => (toString p.1, JsValue.str (String.mk [p.2]))))
  | _ => []

/-- The object literal `{...base, k1: v1, ..., kn: vn}`: each explicit key
assigned in order over the spread fields. -/
def mergeAssign (base : List (String × JsValue)) :
    List (String × JsValue) → List (String × JsValue)
  | [] => base
  | (k, v) :: rest => mergeAssign (setProp base k v) rest

/-- Sloppy-mode property assignment `v.k = x`: updates an object, is a
silent no-op on a primitive receiver (the populate switch only reaches it on
objects). -/
def setFieldJs : JsValue → String → JsValue → JsValue
  | .obj fs, k, v => .obj (setProp fs k v)
  | other, _, _ => other

/-- The fields assigned over `card.config` for a populated card. -/
def populatedConfigFields {α : Type} (itemJs : α → JsValue) (c : CardData α)
    (bg : String) : List (String × JsValue) :=
  [("title", .str c.title),
   ("subtitle", optStrJs c.subtitle),
   ("items", .arr (c.items.map itemJs)),
   ("lastUpdated", optStrJs c.lastUpdated),
   ("backgroundColor", .str bg)]

/-- The `switch (card.type)` body of `populateCardsWithData`: transit,
events, and tasks cards get their `config` overwritten with the fetched
data (the guards `if (ctaData.transit)` etc. always pass: the transformers
always return an object, which is truthy); other cards are untouched. -/
def populateCard (cta : AllCardData) (card : JsValue) : Except Unit JsValue := do
  let ty ← getProp card "type"
  match ty with
  | .str "transit" => do
    let cfg ← getProp card "config"
    .ok (setFieldJs card "config"
      (.obj (mergeAssign (spreadFields cfg)
        (populatedConfigFields transitItemJs cta.transit "#fff3cd"))))
  | .str "events" => do
    let cfg ← getProp card "config"
    .ok (setFieldJs card "config"
      (.obj (mergeAssign (spreadFields cfg)
        (populatedConfigFields eventItemJs cta.events "#d1ecf1"))))
  | .str "tasks" => do
    let cfg ← getProp card "config"
    .ok (setFieldJs card "config"
      (.obj (mergeAssign (spreadFields cfg)
        (populatedConfigFields taskItemJs cta.tasks "#d4edda"))))
  | _ => .ok card

/-- One zone of the populate walk: `zone.cards.forEach(card => ...)`. -/
def populateZone (cta : AllCardData) (zone : JsValue) : Except Unit JsValue := do
  let cardsv ← getProp zone "cards"
  let cards ← asArray cardsv
  let cards2 ← cards.mapM (populateCard cta)
  .ok (setFieldJs zone "cards" (.arr cards2))

/-- `populateCardsWithData(profile)`: awaits `getAllCardData`, deep-copies the
profile via `JSON.parse(JSON.stringify(...))`, rewrites matching cards, and on
any error returns the original profile (the surrounding `try`/`catch`). -/
def populateCardsWithData (profile : JsValue) (cta : Except Unit AllCardData) : JsValue :=
  match (do
    let allCards ← cta
    let copy := jsonRoundTrip profile
    let zonesv ← getProp copy "zones"
    let zones ← asArray zonesv
    let zones2 ← zones.mapM (populateZone allCards)
    Except.ok (setFieldJs copy "zones" (.arr zones2))) with
  | .ok p => p
  | .error _ => profile

/-- `GET /api/profile/active`: choose the base profile (stored active profile,
or the built-in default when the pointer is absent/falsy or dangles), populate
its cards from the cache-and-fetch layer, and respond 200; an exception inside
the handler is turned into a 500 by `handleAsync`. -/
def getApiProfileActiveHandler (files : FileStore) (cache : Cache) (now : Nat)
    (nowIso : String) (upT upE upK : Except Unit JsValue) : HttpResponse :=
  let active := readFileJs files "activeProfile.json"
  let inner : Except Unit JsValue := do
    let baseProfile ←
      if ¬ truthy active then Except.ok getDefaultProfileForUI
      else do
        let pid ← getProp active "profileId"
        let profile := readFileJs files ("profile-" ++ jsToString pid ++ ".json")
        if ¬ truthy profile then Except.ok getDefaultProfileForUI
        else transformProfileForUI profile
    Except.ok (populateCardsWithData baseProfile
      (getAllCardData cache now nowIso upT upE upK).1)
  match inner with
  | .ok body => { status := 200, body := some (jsonRoundTrip body) }
  | .error _ => { status := 500, body := some (jsonRoundTrip (errBody "Internal server error")) }

/-! ## Association-list lemmas -/

theorem cacheGet_cacheSet_self (c : Cache) (k : String) (e : CacheEntry) :
    cacheGet (cacheSet c k e) k = some e := by
  induction c with
  | nil => simp [cacheSet, cacheGet]
  | cons kv rest ih =>
    obtain ⟨k', e'⟩ := kv
    by_cases h : k' = k
    · simp [cacheSet, cacheGet, h]
    · simp [cacheSet, cacheGet, h, ih]

theorem cacheGet_cacheSet_ne (c : Cache) (k k' : String) (e : CacheEntry)
    (h : k ≠ k') : cacheGet (cacheSet c k e) k' = cacheGet c k' := by
  induction c with
  | nil => simp [cacheSet, cacheGet, h]
  | cons kv rest ih =>
    obtain ⟨k₀, e₀⟩ := kv
    by_cases h0 : k₀ = k
    · subst h0; simp [cacheSet, cacheGet, h]
    · simp [cacheSet, cacheGet, h0, ih]

theorem storeGet_storeSet_self (c : FileStore) (k : String) (v : JsValue) :
    storeGet (storeSet c k v) k = some v := by
  induction c with
  | nil => simp [storeSet, storeGet]
  | cons kv rest ih =>
    obtain ⟨k', v'⟩ := kv
    by_cases h : k' = k
    · simp [storeSet, storeGet, h]
    · simp [storeSet, storeGet, h, ih]

theorem storeGet_storeDel_self (c : FileStore) (k : String) :
    storeGet (storeDel c k) k = none := by
  induction c with
  | nil => simp [storeDel, storeGet]
  | cons kv rest ih =>
    obtain ⟨k', v'⟩ := kv
    by_cases h : k' = k
    · simp [storeDel, h, ih]
    · simp [storeDel, storeGet, h, ih]

/-! ## C1 -/

/-- C1: for every cache key, if a `fetchWithCache` call issues an upstream
request that succeeds with payload `data`, then a second call for the same key
within the 5-minute TTL issues no upstream request and returns the identical
payload, so the two calls together issue exactly one request. -/
theorem fetchWithCache_ttl_hit (cache : Cache) (key : String) (t1 t2 : Nat)
    (data : JsValue) (up2 : Except Unit JsValue)
    (hreq : (fetchWithCache cache key t1 (.ok data)).requested = true)
    (httl : t2 - t1 < cacheTimeout) :
    (fetchWithCache cache key t1 (.ok data)).result = data ∧
    (fetchWithCache (fetchWithCache cache key t1 (.ok data)).cache key t2 up2).requested = false ∧
    (fetchWithCache (fetchWithCache cache key t1 (.ok data)).cache key t2 up2).result =
      (fetchWithCache cache key t1 (.ok data)).result := by
  have h1 : fetchWithCache cache key t1 (.ok data) =
      { result := data, cache := cacheSet cache key ⟨data, t1⟩, requested := true } := by
    unfold fetchWithCache at hreq ⊢
    cases hc : cacheGet cache key with
    | none => rfl
    | some cached =>
      rw [hc] at hreq
      dsimp only at hreq ⊢
      by_cases hf : t1 - cached.timestamp < cacheTimeout
      · rw [if_pos hf] at hreq
        exact absurd hreq (by simp)
      · rw [if_neg hf]
  rw [h1]
  have h2 : fetchWithCache (cacheSet cache key ⟨data, t1⟩) key t2 up2 =
      { result := data, cache := cacheSet cache key ⟨data, t1⟩, requested := false } := by
    unfold fetchWithCache
    rw [cacheGet_cacheSet_self]
    exact if_pos httl
  rw [h2]
  exact ⟨rfl, rfl, rfl⟩

/-- Witness for C1 at a concrete cache, key, pair of times and payload. -/
theorem fetchWithCache_ttl_hit_witness :
    (fetchWithCache [] "transit" 0 (.ok (.arr []))).result = .arr [] ∧
    (fetchWithCache (fetchWithCache [] "transit" 0 (.ok (.arr []))).cache
      "transit" 1000 (.error ())).requested = false ∧
    (fetchWithCache (fetchWithCache [] "transit" 0 (.ok (.arr []))).cache
      "transit" 1000 (.error ())).result =
      (fetchWithCache [] "transit" 0 (.ok (.arr []))).result :=
  fetchWithCache_ttl_hit [] "transit" 0 1000 (.arr []) (.error ()) rfl (by decide)

/-! ## C2 -/

/-- C2: when the upstream request fails, `fetchWithCache` serves the cache
entry captured at the start of the call even though it is older than the TTL;
with no entry it returns the `null` sentinel, which each transformer maps to
its fixed placeholder shape (fixed title, empty items, human-readable
unavailable marker, no `lastUpdated`). -/
theorem fetchWithCache_failure_fallback (cache : Cache) (key : String) (now : Nat)
    (c : CacheEntry) (nowIso : String) :
    (cacheGet cache key = some c → ¬ (now - c.timestamp < cacheTimeout) →
      fetchWithCache cache key now (.error ()) =
        { result := c.data, cache := cache, requested := true }) ∧
    (cacheGet cache key = none →
      fetchWithCache cache key now (.error ()) =
        { result := JsValue.null, cache := cache, requested := true }) ∧
    transformTransitData JsValue.null nowIso =
      .ok { title := "CTA Transit", content := some "Transit data unavailable", items := [] } ∧
    transformEventsData JsValue.null nowIso =
      .ok { title := "Calendar Events", content := some "No events available", items := [] } ∧
    transformTasksData JsValue.null nowIso =
      .ok { title := "Habitica Tasks", content := some "Tasks unavailable", items := [] } := by
  refine ⟨?_, ?_, rfl, rfl, rfl⟩
  · intro h hs
    unfold fetchWithCache
    rw [h]
    dsimp only
    rw [if_neg hs]
  · intro h
    unfold fetchWithCache
    rw [h]

/-- Witness for C2: a stale entry is served on failure, and with an empty
cache the failure returns `null`. -/
theorem fetchWithCache_failure_fallback_witness :
    fetchWithCache [("transit", ⟨.str "old", 0⟩)] "transit" 300000 (.error ()) =
      { result := .str "old", cache := [("transit", ⟨.str "old", 0⟩)], requested := true } ∧
    fetchWithCache [] "events" 0 (.error ()) =
      { result := JsValue.null, cache := [], requested := true } :=
  ⟨((fetchWithCache_failure_fallback [("transit", ⟨.str "old", 0⟩)] "transit" 300000
      ⟨.str "old", 0⟩ "t").1 rfl (by decide)),
   ((fetchWithCache_failure_fallback [] "events" 0 ⟨.null, 0⟩ "t").2.1 rfl)⟩

/-! ## C3 -/

theorem fetchWithCache_cache_other (cache : Cache) (key : String) (now : Nat)
    (up : Except Unit JsValue) (k' : String) (h : key ≠ k') :
    cacheGet (fetchWithCache cache key now up).cache k' = cacheGet cache k' := by
  unfold fetchWithCache
  cases hc : cacheGet cache key with
  | none =>
    cases up with
    | ok d => exact cacheGet_cacheSet_ne _ _ _ _ h
    | error e => rfl
  | some cached =>
    dsimp only
    by_cases hf : now - cached.timestamp < cacheTimeout
    · rw [if_pos hf]
    · rw [if_neg hf]
      cases up with
      | ok d => exact cacheGet_cacheSet_ne _ _ _ _ h
      | error e => rfl

theorem fetchWithCache_result_congr (c1 c2 : Cache) (key : String) (now : Nat)
    (up : Except Unit JsValue) (h : cacheGet c1 key = cacheGet c2 key) :
    (fetchWithCache c1 key now up).result = (fetchWithCache c2 key now up).result := by
  unfold fetchWithCache
  rw [h]
  cases cacheGet c2 key with
  | none => cases up <;> rfl
  | some cached =>
    dsimp only
    by_cases hf : now - cached.timestamp < cacheTimeout
    · simp only [if_pos hf]
    · simp only [if_neg hf]
      cases up <;> rfl

/-- Counterexample to C3 as stated: a transit payload that is an array holding
`null` makes its transformer throw, so `getAllCardData` rejects and returns no
record at all, whatever the other sources did. -/
theorem getAllCardData_no_record_on_bad_payload :
    (getAllCardData [] 0 "t" (.ok (.arr [.null])) (.error ()) (.error ())).1 = .error () := rfl

/-- C3 (amended): provided each source's fetched value normalizes without
throwing, `getAllCardData` returns the record with all three fields, and each
field's value is the one computed from its own source's fetch against the
shared starting cache — independent of whether the other two sources
succeeded or failed. -/
theorem getAllCardData_fields_independent (cache : Cache) (now : Nat) (nowIso : String)
    (upT upE upK : Except Unit JsValue)
    (t : CardData TransitItem) (e : CardData EventItem) (k : CardData TaskItem)
    (ht : transformTransitData (fetchWithCache cache "transit" now upT).result nowIso = .ok t)
    (he : transformEventsData (fetchWithCache cache "events" now upE).result nowIso = .ok e)
    (hk : transformTasksData (fetchWithCache cache "tasks" now upK).result nowIso = .ok k) :
    (getAllCardData cache now nowIso upT upE upK).1 = .ok ⟨t, e, k⟩ := by
  unfold getAllCardData
  have hE : (fetchWithCache (fetchWithCache cache "transit" now upT).cache
      "events" now upE).result = (fetchWithCache cache "events" now upE).result :=
    fetchWithCache_result_congr _ _ _ _ _
      (fetchWithCache_cache_other cache "transit" now upT "events" (by decide))
  have hK : (fetchWithCache (fetchWithCache (fetchWithCache cache "transit" now upT).cache
      "events" now upE).cache "tasks" now upK).result =
      (fetchWithCache cache "tasks" now upK).result := by
    have h1 : cacheGet (fetchWithCache (fetchWithCache cache "transit" now upT).cache
        "events" now upE).cache "tasks" = cacheGet cache "tasks" := by
      rw [fetchWithCache_cache_other _ "events" now upE "tasks" (by decide),
          fetchWithCache_cache_other _ "transit" now upT "tasks" (by decide)]
    exact fetchWithCache_result_congr _ _ _ _ _ h1
  dsimp only
  simp only [hE, hK, ht, he, hk]
  rfl

/-- Witness for C3 at concrete inputs: transit and events succeed with empty
arrays, the tasks fetch fails with an empty cache, and the record still has
all three fields, the failed one carrying the placeholder. -/
theorem getAllCardData_fields_independent_witness :
    (getAllCardData [] 0 "t" (.ok (.arr [])) (.ok (.arr [])) (.error ())).1 =
      .ok ⟨{ title := "CTA Transit", subtitle := some "Next 0 arrivals",
             items := [], lastUpdated := some "t" },
           { title := "Upcoming Events", subtitle := some "0 events today",
             items := [], lastUpdated := some "t" },
           { title := "Habitica Tasks", content := some "Tasks unavailable", items := [] }⟩ :=
  getAllCardData_fields_independent [] 0 "t" (.ok (.arr [])) (.ok (.arr [])) (.error ())
    _ _ _ rfl rfl rfl

/-! ## C4 -/

/-- A value on which property access does not throw (anything but
`null`/`undefined`). -/
def isDefined : JsValue → Bool
  | .null => false
  | .undefined => false
  | _ => true

/-- Property access as a total function on defined receivers. -/
def propOrUndef (v : JsValue) (k : String) : JsValue :=
  match getProp v k with
  | .ok x => x
  | .error _ => .undefined

/-- The transit item built from a defined element (what `transitItemOf`
returns when it does not throw). -/
def transitItemFields (stop : JsValue) : TransitItem :=
  { route := jsOr (propOrUndef stop "route") (.str "Unknown Route"),
    destination := jsOr (propOrUndef stop "destination") (.str "Unknown Destination"),
    arrivalTime := jsOr (propOrUndef stop "arrival_time")
      (jsOr (propOrUndef stop "arrivalTime") (.str "TBD")),
    minutes := jsOr (propOrUndef stop "minutes_away")
      (jsOr (propOrUndef stop "minutesAway") (.str "N/A")) }

/-- The event item built from a defined element. -/
def eventItemFields (event : JsValue) : EventItem :=
  { title := jsOr (propOrUndef event "title")
      (jsOr (propOrUndef event "summary") (.str "Untitled Event")),
    time := jsOr (propOrUndef event "start_time")
      (jsOr (propOrUndef event "startTime")
        (jsOr (propOrUndef event "start") (.str "TBD"))),
    description := jsOr (propOrUndef event "description") (.str ""),
    location := jsOr (propOrUndef event "location") (.str "") }

/-- The task item built from a defined element. -/
def taskItemFields (task : JsValue) : TaskItem :=
  { title := jsOr (propOrUndef task "text")
      (jsOr (propOrUndef task "title") (.str "Untitled Task")),
    type := jsOr (propOrUndef task "type") (.str "todo"),
    priority := jsOr (propOrUndef task "priority") (.str "normal"),
    completed := jsOr (propOrUndef task "completed") (.bool false),
    difficulty := jsOr (propOrUndef task "difficulty") (.num 1) }

theorem getProp_ok_of_defined (v : JsValue) (k : String) (h : isDefined v = true) :
    getProp v k = .ok (propOrUndef v k) := by
  cases v with
  | null => simp [isDefined] at h
  | undefined => simp [isDefined] at h
  | obj fs =>
    unfold propOrUndef
    cases hl : lookupProp fs k <;> simp [getProp, hl]
  | _ => rfl

theorem transitItemOf_defined (x : JsValue) (h : isDefined x = true) :
    transitItemOf x = .ok (transitItemFields x) := by
  unfold transitItemOf transitItemFields
  simp only [getProp_ok_of_defined _ _ h]
  rfl

theorem eventItemOf_defined (x : JsValue) (h : isDefined x = true) :
    eventItemOf x = .ok (eventItemFields x) := by
  unfold eventItemOf eventItemFields
  simp only [getProp_ok_of_defined _ _ h]
  rfl

theorem taskItemOf_defined (x : JsValue) (h : isDefined x = true) :
    taskItemOf x = .ok (taskItemFields x) := by
  unfold taskItemOf taskItemFields
  simp only [getProp_ok_of_defined _ _ h]
  rfl

theorem mapM_ok_of_forall {α β : Type} (f : α → Except Unit β) (g : α → β) :
    ∀ l : List α, (∀ x ∈ l, f x = .ok (g x)) → l.mapM f = .ok (l.map g) := by
  have loop : ∀ (l : List α) (acc : List β), (∀ x ∈ l, f x = .ok (g x)) →
      List.mapM.loop f l acc = .ok (acc.reverse ++ l.map g) := by
    intro l
    induction l with
    | nil =>
      intro acc _
      simp only [List.mapM.loop, List.map_nil, List.append_nil]
      rfl
    | cons x rest ih =>
      intro acc h
      have hx := h x (by simp)
      simp only [List.mapM.loop, hx]
      rw [show ((Except.ok (g x) : Except Unit β) >>= fun y =>
            List.mapM.loop f rest (y :: acc)) = List.mapM.loop f rest (g x :: acc) from rfl]
      rw [ih (g x :: acc) (fun y hy => h y (by simp [hy]))]
      simp
  intro l h
  have h0 := loop l [] h
  simpa [List.mapM] using h0

/-- Counterexample to C4 as stated: a `null` element in the collection makes
the transit and events transformers throw (the JavaScript `stop.route` on
`null` is a `TypeError`), and a truthy non-array `tasks` field makes the tasks
transformer throw (`.slice`/`.map` on a number). -/
theorem transformers_throw_on_null_items :
    transformTransitData (.arr [.null]) "t" = .error () ∧
    transformEventsData (.arr [.null]) "t" = .error () ∧
    transformTasksData (.obj [("tasks", .num 5)]) "t" = .error () :=
  ⟨rfl, rfl, rfl⟩

theorem exceptOkBind {ε α β : Type} (a : α) (f : α → Except ε β) :
    (Except.ok a >>= f) = f a := rfl

theorem exceptPureBind {ε α β : Type} (a : α) (f : α → Except ε β) :
    ((pure a : Except ε α) >>= f) = f a := rfl

theorem transformTransitData_arr (xs : List JsValue) (nowIso : String)
    (items : List TransitItem)
    (hm : List.mapM transitItemOf (xs.take 5) = .ok items) :
    transformTransitData (.arr xs) nowIso =
      .ok { title := "CTA Transit",
            subtitle := some ("Next " ++ toString items.length ++ " arrivals"),
            items := items, lastUpdated := some nowIso } := by
  unfold transformTransitData
  rw [if_neg (by simp [truthy, isArray])]
  rw [show asArray (JsValue.arr xs) = Except.ok xs from rfl, exceptOkBind, hm, exceptOkBind]

theorem transformEventsData_arr (xs : List JsValue) (nowIso : String)
    (items : List EventItem)
    (hm : List.mapM eventItemOf (xs.take 5) = .ok items) :
    transformEventsData (.arr xs) nowIso =
      .ok { title := "Upcoming Events",
            subtitle := some (toString items.length ++ " events today"),
            items := items, lastUpdated := some nowIso } := by
  unfold transformEventsData
  rw [if_neg (by simp [truthy, isArray])]
  rw [show asArray (JsValue.arr xs) = Except.ok xs from rfl, exceptOkBind, hm, exceptOkBind]

theorem transformTasksData_arr (xs : List JsValue) (nowIso : String)
    (items : List TaskItem)
    (hm : List.mapM taskItemOf (xs.take 5) = .ok items) :
    transformTasksData (.arr xs) nowIso =
      .ok { title := "Habitica Tasks",
            subtitle := some (toString (items.filter (fun task => truthy task.completed)).length
              ++ "/" ++ toString items.length ++ " completed"),
            items := items, lastUpdated := some nowIso } := by
  unfold transformTasksData
  rw [if_neg (by simp [truthy])]
  rw [if_pos (show isArray (JsValue.arr xs) = true from rfl)]
  rw [exceptPureBind]
  dsimp only
  rw [show asArray (JsValue.arr xs) = Except.ok xs from rfl, exceptOkBind, hm, exceptOkBind]

theorem transformTasksData_obj (fs : List (String × JsValue)) (ys : List JsValue)
    (nowIso : String) (items : List TaskItem)
    (hl : lookupProp fs "tasks" = some (.arr ys))
    (hm : List.mapM taskItemOf (ys.take 5) = .ok items) :
    transformTasksData (.obj fs) nowIso =
      .ok { title := "Habitica Tasks",
            subtitle := some (toString (items.filter (fun task => truthy task.completed)).length
              ++ "/" ++ toString items.length ++ " completed"),
            items := items, lastUpdated := some nowIso } := by
  unfold transformTasksData
  rw [if_neg (by simp [truthy])]
  rw [if_neg (by simp [isArray])]
  rw [show getProp (JsValue.obj fs) "tasks" = Except.ok (JsValue.arr ys) by
        simp [getProp, hl]]
  rw [exceptOkBind, exceptPureBind]
  dsimp only
  rw [show jsOr (JsValue.arr ys) (.arr []) = JsValue.arr ys from rfl]
  rw [show asArray (JsValue.arr ys) = Except.ok ys from rfl, exceptOkBind, hm, exceptOkBind]

theorem transformTasksData_no_tasks (fs : List (String × JsValue)) (nowIso : String)
    (hf : truthy (propOrUndef (.obj fs) "tasks") = false) :
    transformTasksData (.obj fs) nowIso =
      .ok { title := "Habitica Tasks", subtitle := some "0/0 completed",
            items := [], lastUpdated := some nowIso } := by
  unfold transformTasksData
  rw [if_neg (by simp [truthy])]
  rw [if_neg (by simp [isArray])]
  rw [getProp_ok_of_defined _ _ (by simp [isDefined])]
  rw [exceptOkBind, exceptPureBind]
  rw [show jsOr (propOrUndef (JsValue.obj fs) "tasks") (.arr []) = JsValue.arr [] by
        unfold jsOr; rw [hf]; rfl]
  rfl

/-- C4 (amended): each transformer returns without throwing provided the
first five collection elements are not `null`/`undefined` (and, for tasks,
provided a truthy `tasks` field is an array); a non-array payload yields
the placeholder with empty items (for tasks, a falsy payload or a falsy
`tasks` field yields empty items); and the returned items are exactly the
transforms of the first `min 5 n` input elements, in input order. -/
theorem transformers_truncate_first_five (nowIso : String) (d : JsValue)
    (xs ys : List JsValue) (fs : List (String × JsValue)) :
    (isArray d = false →
      transformTransitData d nowIso =
        .ok { title := "CTA Transit", content := some "Transit data unavailable", items := [] } ∧
      transformEventsData d nowIso =
        .ok { title := "Calendar Events", content := some "No events available", items := [] }) ∧
    (truthy d = false →
      transformTasksData d nowIso =
        .ok { title := "Habitica Tasks", content := some "Tasks unavailable", items := [] }) ∧
    (truthy (propOrUndef (.obj fs) "tasks") = false →
      transformTasksData (.obj fs) nowIso =
        .ok { title := "Habitica Tasks", subtitle := some "0/0 completed",
              items := [], lastUpdated := some nowIso }) ∧
    ((∀ x ∈ xs.take 5, isDefined x = true) →
      transformTransitData (.arr xs) nowIso =
        .ok { title := "CTA Transit",
              subtitle := some ("Next " ++ toString ((xs.take 5).map transitItemFields).length
                ++ " arrivals"),
              items := (xs.take 5).map transitItemFields,
              lastUpdated := some nowIso } ∧
      transformEventsData (.arr xs) nowIso =
        .ok { title := "Upcoming Events",
              subtitle := some (toString ((xs.take 5).map eventItemFields).length
                ++ " events today"),
              items := (xs.take 5).map eventItemFields,
              lastUpdated := some nowIso } ∧
      transformTasksData (.arr xs) nowIso =
        .ok { title := "Habitica Tasks",
              subtitle := some (toString (((xs.take 5).map taskItemFields).filter
                  (fun task => truthy task.completed)).length
                ++ "/" ++ toString ((xs.take 5).map taskItemFields).length ++ " completed"),
              items := (xs.take 5).map taskItemFields,
              lastUpdated := some nowIso } ∧
      ((xs.take 5).map transitItemFields).length = min 5 xs.length) ∧
    (lookupProp fs "tasks" = some (.arr ys) → (∀ y ∈ ys.take 5, isDefined y = true) →
      transformTasksData (.obj fs) nowIso =
        .ok { title := "Habitica Tasks",
              subtitle := some (toString (((ys.take 5).map taskItemFields).filter
                  (fun task => truthy task.completed)).length
                ++ "/" ++ toString ((ys.take 5).map taskItemFields).length ++ " completed"),
              items := (ys.take 5).map taskItemFields,
              lastUpdated := some nowIso } ∧
      ((ys.take 5).map taskItemFields).length = min 5 ys.length) := by
  refine ⟨?_, ?_, ?_, ?_, ?_⟩
  · intro h
    constructor
    · unfold transformTransitData
      rw [if_pos (Or.inr (by simp [h]))]
    · unfold transformEventsData
      rw [if_pos (Or.inr (by simp [h]))]
  · intro h
    unfold transformTasksData
    rw [if_pos (by simp [h])]
  · exact transformTasksData_no_tasks fs nowIso
  · intro h
    refine ⟨transformTransitData_arr xs nowIso _
        (mapM_ok_of_forall _ _ _ (fun x hx => transitItemOf_defined x (h x hx))),
      transformEventsData_arr xs nowIso _
        (mapM_ok_of_forall _ _ _ (fun x hx => eventItemOf_defined x (h x hx))),
      transformTasksData_arr xs nowIso _
        (mapM_ok_of_forall _ _ _ (fun x hx => taskItemOf_defined x (h x hx))),
      ?_⟩
    simp [List.length_take]
  · intro hl h
    refine ⟨transformTasksData_obj fs ys nowIso _ hl
        (mapM_ok_of_forall _ _ _ (fun y hy => taskItemOf_defined y (h y hy))), ?_⟩
    simp [List.length_take]

/-- Witness for C4 at concrete inputs: a six-element transit payload is
truncated to its first five elements in order, and a non-array payload gives
the placeholder. -/
theorem transformers_truncate_first_five_witness :
    (transformTransitData (.str "nope") "t" =
        .ok { title := "CTA Transit", content := some "Transit data unavailable", items := [] } ∧
      transformEventsData (.str "nope") "t" =
        .ok { title := "Calendar Events", content := some "No events available", items := [] }) ∧
    (transformTransitData
        (.arr [.num 1, .num 2, .num 3, .num 4, .num 5, .num 6]) "t" =
      .ok { title := "CTA Transit",
            subtitle := some ("Next " ++ toString (([JsValue.num 1, .num 2, .num 3, .num 4,
                .num 5, .num 6].take 5).map transitItemFields).length ++ " arrivals"),
            items := ([JsValue.num 1, .num 2, .num 3, .num 4, .num 5,
                .num 6].take 5).map transitItemFields,
            lastUpdated := some "t" }) ∧
    (([JsValue.num 1, .num 2, .num 3, .num 4, .num 5, .num 6].take 5).map
        transitItemFields).length =
      min 5 [JsValue.num 1, .num 2, .num 3, .num 4, .num 5, .num 6].length :=
  ⟨(transformers_truncate_first_five "t" (.str "nope") [] [] []).1 rfl,
   ((transformers_truncate_first_five "t" (.str "nope")
       [.num 1, .num 2, .num 3, .num 4, .num 5, .num 6] [] []).2.2.2.1
     (by decide)).1,
   ((transformers_truncate_first_five "t" (.str "nope")
       [.num 1, .num 2, .num 3, .num 4, .num 5, .num 6] [] []).2.2.2.1
     (by decide)).2.2.2⟩

/-! ## C5 -/

/-- Counterexample to C5 as stated: a transit item with `minutes_away`
present and equal to `0` is not carried through — `0` is falsy, so the
`||` chain falls through to the `'N/A'` default. -/
theorem transit_zero_minutes_replaced :
    transformTransitData (.arr [.obj [("route", .str "R"), ("destination", .str "D"),
      ("arrival_time", .str "2:15 PM"), ("minutes_away", .num 0)]]) "t" =
      .ok { title := "CTA Transit", subtitle := some "Next 1 arrivals",
            items := [{ route := .str "R", destination := .str "D",
                        arrivalTime := .str "2:15 PM", minutes := .str "N/A" }],
            lastUpdated := some "t" } ∧
    JsValue.str "N/A" ≠ JsValue.num 0 :=
  ⟨rfl, by simp⟩

/-- First truthy candidate of an ordered list, else the default literal. -/
def firstTruthy (dflt : JsValue) : List JsValue → JsValue
  | [] => dflt
  | c :: rest => if truthy c then c else firstTruthy dflt rest

/-- C5 (amended): each transit field is the first JavaScript-truthy candidate
in the fixed preference order (`arrival_time` before `arrivalTime`,
`minutes_away` before `minutesAway`), the default literal being used when
every candidate is falsy — so absent fields get the default, and a present
truthy field (though not a present falsy one such as `0`) is carried through
unchanged. -/
theorem transit_fields_candidate_order (fs : List (String × JsValue)) :
    transitItemOf (.obj fs) = .ok
      { route := firstTruthy (.str "Unknown Route") [propOrUndef (.obj fs) "route"],
        destination := firstTruthy (.str "Unknown Destination")
          [propOrUndef (.obj fs) "destination"],
        arrivalTime := firstTruthy (.str "TBD")
          [propOrUndef (.obj fs) "arrival_time", propOrUndef (.obj fs) "arrivalTime"],
        minutes := firstTruthy (.str "N/A")
          [propOrUndef (.obj fs) "minutes_away", propOrUndef (.obj fs) "minutesAway"] } ∧
    (∀ v, lookupProp fs "minutes_away" = some v → truthy v = true →
      ∃ it, transitItemOf (.obj fs) = .ok it ∧ it.minutes = v) := by
  constructor
  · rw [transitItemOf_defined (.obj fs) rfl]
    rfl
  · intro v hv htr
    refine ⟨_, transitItemOf_defined (.obj fs) rfl, ?_⟩
    have hp : propOrUndef (.obj fs) "minutes_away" = v := by
      simp [propOrUndef, getProp, hv]
    simp [transitItemFields, hp, jsOr, htr]

/-- Witness for C5: `minutes_away: 7` (truthy) is carried through unchanged. -/
theorem transit_fields_candidate_order_witness :
    ∃ it, transitItemOf (.obj [("minutes_away", .num 7)]) = .ok it ∧
      it.minutes = .num 7 :=
  (transit_fields_candidate_order [("minutes_away", .num 7)]).2 (.num 7) rfl rfl

/-! ## C6 -/

/-- The normalization result with its per-call timestamp removed. -/
def stripTime {α : Type} (c : CardData α) : CardData α :=
  { c with lastUpdated := none }

/-- The `lastUpdated` component of a transformer result. -/
def lastUpdOf {α : Type} : Except Unit (CardData α) → Option String
  | .ok c => c.lastUpdated
  | .error _ => none

/-- Counterexample to C6 as stated: the same transformer on the same payload
at two different call times returns different results — `lastUpdated` is
stamped with `new Date()` at each call. -/
theorem transformers_time_dependent :
    transformTransitData (.arr []) "a" ≠ transformTransitData (.arr []) "b" ∧
    transformEventsData (.arr []) "a" ≠ transformEventsData (.arr []) "b" ∧
    transformTasksData (.arr []) "a" ≠ transformTasksData (.arr []) "b" := by
  refine ⟨fun h => absurd (congrArg lastUpdOf h) (by decide),
          fun h => absurd (congrArg lastUpdOf h) (by decide),
          fun h => absurd (congrArg lastUpdOf h) (by decide)⟩

/-- C6 (amended): each transformer is deterministic given its input and the
normalization time, and every component except `lastUpdated` depends on the
input alone: results at two call times agree once `lastUpdated` is removed. -/
theorem transformers_deterministic_given_time (d : JsValue) (n n' : String) :
    (transformTransitData d n).map stripTime = (transformTransitData d n').map stripTime ∧
    (transformEventsData d n).map stripTime = (transformEventsData d n').map stripTime ∧
    (transformTasksData d n).map stripTime = (transformTasksData d n').map stripTime := by
  refine ⟨?_, ?_, ?_⟩
  · unfold transformTransitData
    by_cases h : ¬ truthy d ∨ ¬ isArray d
    · rw [if_pos h, if_pos h]
    · rw [if_neg h, if_neg h]
      have ha : isArray d = true := by
        by_contra hc
        exact h (Or.inr hc)
      obtain ⟨xs, rfl⟩ : ∃ xs, d = .arr xs := by
        cases d <;> simp [isArray] at ha ⊢
      rw [show asArray (JsValue.arr xs) = Except.ok xs from rfl, exceptOkBind, exceptOkBind]
      cases hm : List.mapM transitItemOf (xs.take 5) with
      | error e => rfl
      | ok items => rfl
  · unfold transformEventsData
    by_cases h : ¬ truthy d ∨ ¬ isArray d
    · rw [if_pos h, if_pos h]
    · rw [if_neg h, if_neg h]
      have ha : isArray d = true := by
        by_contra hc
        exact h (Or.inr hc)
      obtain ⟨xs, rfl⟩ : ∃ xs, d = .arr xs := by
        cases d <;> simp [isArray] at ha ⊢
      rw [show asArray (JsValue.arr xs) = Except.ok xs from rfl, exceptOkBind, exceptOkBind]
      cases hm : List.mapM eventItemOf (xs.take 5) with
      | error e => rfl
      | ok items => rfl
  · unfold transformTasksData
    by_cases h : ¬ truthy d
    · rw [if_pos h, if_pos h]
    · rw [if_neg h, if_neg h]
      by_cases ha : isArray d = true
      · rw [if_pos ha, if_pos ha, exceptPureBind, exceptPureBind]
        dsimp only
        cases hA : asArray d with
        | error e => rfl
        | ok tasks =>
          rw [exceptOkBind, exceptOkBind]
          cases hm : List.mapM taskItemOf (tasks.take 5) with
          | error e => rfl
          | ok items => rfl
      · rw [if_neg ha, if_neg ha]
        cases hg : getProp d "tasks" with
        | error e => rfl
        | ok t =>
          rw [exceptOkBind, exceptOkBind, exceptPureBind, exceptPureBind]
          dsimp only
          cases hA : asArray (jsOr t (.arr [])) with
          | error e => rfl
          | ok tasks =>
            rw [exceptOkBind, exceptOkBind]
            cases hm : List.mapM taskItemOf (tasks.take 5) with
            | error e => rfl
            | ok items => rfl

/-! ## C7 -/

theorem jsValue_induction (P : JsValue → Prop)
    (hnull : P .null) (hundef : P .undefined) (hbool : ∀ b, P (.bool b))
    (hnum : ∀ n, P (.num n)) (hstr : ∀ s, P (.str s))
    (harr : ∀ xs, (∀ x ∈ xs, P x) → P (.arr xs))
    (hobj : ∀ fs, (∀ kv ∈ fs, P kv.2) → P (.obj fs)) :
    ∀ v, P v := by
  intro v
  generalize hn : sizeOf v = n
  induction n using Nat.strong_induction_on generalizing v with
  | _ n ih =>
    subst hn
    cases v with
    | null => exact hnull
    | undefined => exact hundef
    | bool b => exact hbool b
    | num m => exact hnum m
    | str s => exact hstr s
    | arr xs =>
      refine harr xs (fun x hx => ih (sizeOf x) ?_ x rfl)
      have h1 := List.sizeOf_lt_of_mem hx
      simp only [JsValue.arr.sizeOf_spec]
      omega
    | obj fs =>
      refine hobj fs (fun kv hkv => ih (sizeOf kv.2) ?_ kv.2 rfl)
      have h1 := List.sizeOf_lt_of_mem hkv
      have h2 : sizeOf kv.2 < sizeOf kv := by
        obtain ⟨a, b⟩ := kv
        simp
      simp only [JsValue.obj.sizeOf_spec]
      omega

theorem rtArr_idem (xs : List JsValue)
    (ih : ∀ x ∈ xs, jsonRoundTrip (jsonRoundTrip x) = jsonRoundTrip x) :
    jsonRoundTrip.rtArr (jsonRoundTrip.rtArr xs) = jsonRoundTrip.rtArr xs := by
  induction xs with
  | nil => rfl
  | cons x rest ihr =>
    have hx := ih x (List.mem_cons_self x rest)
    have hr := ihr (fun y hy => ih y (List.mem_cons_of_mem x hy))
    cases x with
    | null => simp [jsonRoundTrip.rtArr, jsonRoundTrip, hr]
    | undefined => simp [jsonRoundTrip.rtArr, jsonRoundTrip, hr]
    | bool b => simp [jsonRoundTrip.rtArr, jsonRoundTrip, hr]
    | num n => simp [jsonRoundTrip.rtArr, jsonRoundTrip, hr]
    | str s => simp [jsonRoundTrip.rtArr, jsonRoundTrip, hr]
    | arr ys =>
      simp only [jsonRoundTrip, JsValue.arr.injEq] at hx
      simp [jsonRoundTrip.rtArr, jsonRoundTrip, hx, hr]
    | obj gs =>
      simp only [jsonRoundTrip, JsValue.obj.injEq] at hx
      simp [jsonRoundTrip.rtObj, jsonRoundTrip.rtArr, jsonRoundTrip, hx, hr]

theorem rtObj_idem (fs : List (String × JsValue))
    (ih : ∀ kv ∈ fs, jsonRoundTrip (jsonRoundTrip kv.2) = jsonRoundTrip kv.2) :
    jsonRoundTrip.rtObj (jsonRoundTrip.rtObj fs) = jsonRoundTrip.rtObj fs := by
  induction fs with
  | nil => rfl
  | cons kv rest ihr =>
    obtain ⟨k, v⟩ := kv
    have hv := ih (k, v) (List.mem_cons_self (k, v) rest)
    have hr := ihr (fun y hy => ih y (List.mem_cons_of_mem (k, v) hy))
    cases v with
    | undefined => simp [jsonRoundTrip.rtObj, hr]
    | null => simp [jsonRoundTrip.rtObj, jsonRoundTrip, hr]
    | bool b => simp [jsonRoundTrip.rtObj, jsonRoundTrip, hr]
    | num n => simp [jsonRoundTrip.rtObj, jsonRoundTrip, hr]
    | str s => simp [jsonRoundTrip.rtObj, jsonRoundTrip, hr]
    | arr ys =>
      simp only [jsonRoundTrip, JsValue.arr.injEq] at hv
      simp [jsonRoundTrip.rtObj, jsonRoundTrip, hv, hr]
    | obj gs =>
      simp only [jsonRoundTrip, JsValue.obj.injEq] at hv
      simp [jsonRoundTrip.rtObj, jsonRoundTrip, hv, hr]

/-- Serialising an already-serialised JSON value changes nothing. -/
theorem jsonRoundTrip_idem :
    ∀ v, jsonRoundTrip (jsonRoundTrip v) = jsonRoundTrip v := by
  refine jsValue_induction _ rfl rfl (fun b => rfl) (fun n => rfl) (fun s => rfl) ?_ ?_
  · intro xs ih
    simp only [jsonRoundTrip]
    rw [rtArr_idem xs ih]
  · intro fs ih
    simp only [jsonRoundTrip]
    rw [rtObj_idem fs ih]

/-- C7: after a validated `PUT /display/profiles/:id`, the stored file holds
the stamped profile object, the `PUT` response echoes exactly that object,
and a `GET /display/profiles/:id` returns exactly that object again — the
write-then-read round trip is the identity on the written JSON content. -/
theorem putProfile_then_get_roundtrip (files : FileStore) (id : String)
    (body : JsValue) (nowIso : String) (v : JsValue)
    (hv : validateProfile body = .ok v) :
    storeGet (putProfileHandler files id body nowIso).2 (profileFileName id) =
      some (jsonRoundTrip (stampedEntity v id nowIso)) ∧
    getProfileHandler (putProfileHandler files id body nowIso).2 id =
      { status := 200, body := some (jsonRoundTrip (stampedEntity v id nowIso)) } ∧
    (putProfileHandler files id body nowIso).1 =
      { status := 200, body := some (jsonRoundTrip (stampedEntity v id nowIso)) } := by
  unfold putProfileHandler
  rw [hv]
  dsimp only
  refine ⟨?_, ?_, rfl⟩
  · unfold writeFile
    exact storeGet_storeSet_self _ _ _
  · unfold getProfileHandler readFileJs writeFile
    rw [storeGet_storeSet_self]
    rw [if_neg (by simp [stampedEntity, jsonRoundTrip, truthy])]
    rw [jsonRoundTrip_idem]

/-- Witness for C7 at a concrete profile body and id. -/
theorem putProfile_then_get_roundtrip_witness :
    getProfileHandler
      (putProfileHandler [] "p1"
        (.obj [("name", .str "Board"),
               ("zones", .obj
                 [("left", .obj [("width", .num 100), ("height", .num 200)]),
                  ("center", .obj [("width", .num 100), ("height", .num 200)]),
                  ("right", .obj [("width", .num 100), ("height", .num 200)])])])
        "now1").2 "p1" =
      { status := 200,
        body := some (jsonRoundTrip (stampedEntity
          (.obj [("name", .str "Board"),
                 ("zones", .obj
                   [("left", .obj [("width", .num 100), ("height", .num 200),
                      ("cards", .arr [])]),
                    ("center", .obj [("width", .num 100), ("height", .num 200),
                      ("cards", .arr [])]),
                    ("right", .obj [("width", .num 100), ("height", .num 200),
                      ("cards", .arr [])])])])
          "p1" "now1")) } :=
  (putProfile_then_get_roundtrip [] "p1"
    (.obj [("name", .str "Board"),
           ("zones", .obj
             [("left", .obj [("width", .num 100), ("height", .num 200)]),
              ("center", .obj [("width", .num 100), ("height", .num 200)]),
              ("right", .obj [("width", .num 100), ("height", .num 200)])])])
    "now1"
    (.obj [("name", .str "Board"),
           ("zones", .obj
             [("left", .obj [("width", .num 100), ("height", .num 200),
                ("cards", .arr [])]),
              ("center", .obj [("width", .num 100), ("height", .num 200),
                ("cards", .arr [])]),
              ("right", .obj [("width", .num 100), ("height", .num 200),
                ("cards", .arr [])])])])
    rfl).2.1

/-! ## C8 -/

/-- C8: a `DELETE /display/profiles/:id` for an existing profile is rejected
with a client-error status (the code answers 400 with
`"Cannot delete active profile"`) and leaves the store unchanged when the
active-profile pointer references that id; for any other existing profile the
deletion answers 204 and a subsequent `GET` for that id is a 404. -/
theorem deleteProfile_active_guard (files : FileStore) (id : String)
    (hex : truthy (readFileJs files (profileFileName id)) = true) :
    ((truthy (readFileJs files "activeProfile.json") = true ∧
      propEqStr (readFileJs files "activeProfile.json") "profileId" id = true) →
      (deleteProfileHandler files id).1.status = 400 ∧
      (deleteProfileHandler files id).2 = files) ∧
    (¬ (truthy (readFileJs files "activeProfile.json") = true ∧
        propEqStr (readFileJs files "activeProfile.json") "profileId" id = true) →
      (deleteProfileHandler files id).1.status = 204 ∧
      (getProfileHandler (deleteProfileHandler files id).2 id).status = 404) := by
  unfold deleteProfileHandler
  rw [if_neg (not_not_intro hex)]
  dsimp only
  constructor
  · intro h
    rw [if_pos h]
    exact ⟨rfl, rfl⟩
  · intro h
    rw [if_neg h]
    refine ⟨rfl, ?_⟩
    unfold getProfileHandler readFileJs deleteFile
    rw [storeGet_storeDel_self]
    rw [if_pos (by simp [truthy])]

/-- A concrete three-file store: two profiles, the first one active. -/
def sampleStore : FileStore :=
  [("profile-a.json", .obj [("name", .str "A")]),
   ("profile-b.json", .obj [("name", .str "B")]),
   ("activeProfile.json", .obj [("profileId", .str "a")])]

/-- Witness for C8: deleting the active profile `a` is rejected and changes
nothing; deleting the inactive profile `b` succeeds and its `GET` turns 404. -/
theorem deleteProfile_active_guard_witness :
    ((deleteProfileHandler sampleStore "a").1.status = 400 ∧
      (deleteProfileHandler sampleStore "a").2 = sampleStore) ∧
    ((deleteProfileHandler sampleStore "b").1.status = 204 ∧
      (getProfileHandler (deleteProfileHandler sampleStore "b").2 "b").status = 404) :=
  ⟨(deleteProfile_active_guard sampleStore "a" rfl).1 ⟨rfl, rfl⟩,
   (deleteProfile_active_guard sampleStore "b" rfl).2 (fun h => Bool.noConfusion h.2)⟩

/-! ## C9 -/

theorem lookupProp_setProp_self (fs : List (String × JsValue)) (k : String) (v : JsValue) :
    lookupProp (setProp fs k v) k = some v := by
  induction fs with
  | nil => simp [setProp, lookupProp]
  | cons kv rest ih =>
    obtain ⟨k0, v0⟩ := kv
    by_cases h : k0 = k
    · simp [setProp, lookupProp, h]
    · simp [setProp, lookupProp, h, ih]

theorem lookupProp_setProp_ne (fs : List (String × JsValue)) (k k' : String) (v : JsValue)
    (h : k ≠ k') : lookupProp (setProp fs k v) k' = lookupProp fs k' := by
  induction fs with
  | nil => simp [setProp, lookupProp, h]
  | cons kv rest ih =>
    obtain ⟨k0, v0⟩ := kv
    by_cases h0 : k0 = k
    · subst h0; simp [setProp, lookupProp, h]
    · simp [setProp, lookupProp, h0, ih]

theorem rtObj_lookup_str (fs : List (String × JsValue)) (k s : String)
    (h : lookupProp fs k = some (.str s)) :
    lookupProp (jsonRoundTrip.rtObj fs) k = some (.str s) := by
  induction fs with
  | nil => simp [lookupProp] at h
  | cons kv rest ih =>
    obtain ⟨k0, v⟩ := kv
    by_cases hk : k0 = k
    · subst hk
      simp [lookupProp] at h
      subst h
      simp [jsonRoundTrip.rtObj, jsonRoundTrip, lookupProp]
    · simp only [lookupProp, if_neg hk] at h
      cases v <;> simp [jsonRoundTrip.rtObj, lookupProp, hk] <;> exact ih h

/-- `populateCardsWithData` never changes a profile's string `id` field: it
either returns the original object (on an internal error) or the deep copy
with only `zones` rewritten. -/
theorem populate_preserves_id (p : JsValue) (fs : List (String × JsValue))
    (cta : Except Unit AllCardData) (s : String) (hp : p = .obj fs)
    (hid : lookupProp fs "id" = some (.str s)) :
    ∃ gs, populateCardsWithData p cta = .obj gs ∧
      lookupProp gs "id" = some (.str s) := by
  subst hp
  unfold populateCardsWithData
  cases cta with
  | error e => exact ⟨fs, rfl, hid⟩
  | ok ac =>
    rw [exceptOkBind]
    dsimp only
    simp only [jsonRoundTrip]
    cases hz : getProp (JsValue.obj (jsonRoundTrip.rtObj fs)) "zones" with
    | error e =>
      cases hl : lookupProp (jsonRoundTrip.rtObj fs) "zones" <;>
        simp [getProp, hl] at hz
    | ok zv =>
      rw [exceptOkBind]
      cases hA : asArray zv with
      | error e => exact ⟨fs, rfl, hid⟩
      | ok zones =>
        rw [exceptOkBind]
        cases hm : List.mapM (populateZone ac) zones with
        | error e => exact ⟨fs, rfl, hid⟩
        | ok zones2 =>
          rw [exceptOkBind]
          refine ⟨_, rfl, ?_⟩
          rw [lookupProp_setProp_ne _ _ _ _ (by decide)]
          exact rtObj_lookup_str fs "id" s hid

/-- The composed answer for the built-in default profile keeps the id
`"default-profile"`, whatever the upstream data looked like. -/
theorem populate_default_id (cta : Except Unit AllCardData) :
    getProp (jsonRoundTrip (populateCardsWithData getDefaultProfileForUI cta)) "id" =
      .ok (.str "default-profile") := by
  obtain ⟨gs, hpop, hlook⟩ := populate_preserves_id getDefaultProfileForUI
    (objFields getDefaultProfileForUI) cta "default-profile" rfl rfl
  rw [hpop]
  simp only [jsonRoundTrip]
  simp [getProp, rtObj_lookup_str gs "id" _ hlook]

/-- C9: `GET /api/profile/active` does not answer not-found: when the
active-profile pointer record is absent (or falsy), or when it names a
profile whose file is missing, the endpoint answers 200 with the built-in
default profile, whose id is `"default-profile"`. -/
theorem apiProfileActive_defaults (files : FileStore) (cache : Cache) (now : Nat)
    (nowIso : String) (upT upE upK : Except Unit JsValue)
    (h : truthy (readFileJs files "activeProfile.json") = false ∨
      (∃ pid, getProp (readFileJs files "activeProfile.json") "profileId" = .ok pid ∧
        truthy (readFileJs files ("profile-" ++ jsToString pid ++ ".json")) = false)) :
    (getApiProfileActiveHandler files cache now nowIso upT upE upK).status = 200 ∧
    ∃ b, (getApiProfileActiveHandler files cache now nowIso upT upE upK).body = some b ∧
      getProp b "id" = .ok (.str "default-profile") := by
  unfold getApiProfileActiveHandler
  dsimp only
  by_cases ha : truthy (readFileJs files "activeProfile.json") = true
  · rw [if_neg (not_not_intro ha)]
    rcases h with h0 | ⟨pid, hpid, hdangle⟩
    · rw [h0] at ha
      exact absurd ha (by simp)
    · rw [hpid, exceptOkBind]
      rw [if_pos (by simp [hdangle])]
      exact ⟨rfl, _, rfl, populate_default_id _⟩
  · rw [if_pos ha]
    exact ⟨rfl, _, rfl, populate_default_id _⟩

/-- Witness for C9: an empty store (no pointer record at all) with all three
upstream sources failing still answers 200 with the default profile id. -/
theorem apiProfileActive_defaults_witness :
    (getApiProfileActiveHandler [] [] 0 "t" (.error ()) (.error ()) (.error ())).status = 200 ∧
    ∃ b, (getApiProfileActiveHandler [] [] 0 "t"
        (.error ()) (.error ()) (.error ())).body = some b ∧
      getProp b "id" = .ok (.str "default-profile") :=
  apiProfileActive_defaults [] [] 0 "t" (.error ()) (.error ()) (.error ()) (Or.inl rfl)

/-! ## C10 -/

theorem stamped_lookup (v : JsValue) (id nowIso : String) :
    getProp (jsonRoundTrip (stampedEntity v id nowIso)) "id" = .ok (.str id) ∧
    getProp (jsonRoundTrip (stampedEntity v id nowIso)) "updatedAt" = .ok (.str nowIso) := by
  unfold stampedEntity
  constructor
  · simp only [jsonRoundTrip]
    have h1 : lookupProp (setProp (setProp (objFields v) "id" (.str id))
        "updatedAt" (.str nowIso)) "id" = some (.str id) := by
      rw [lookupProp_setProp_ne _ _ _ _ (by decide)]
      exact lookupProp_setProp_self _ _ _
    simp [getProp, rtObj_lookup_str _ _ _ h1]
  · simp only [jsonRoundTrip]
    have h1 : lookupProp (setProp (setProp (objFields v) "id" (.str id))
        "updatedAt" (.str nowIso)) "updatedAt" = some (.str nowIso) :=
      lookupProp_setProp_self _ _ _
    simp [getProp, rtObj_lookup_str _ _ _ h1]

/-- C10: after a validated `PUT /display/profiles/:id` or
`PUT /display/cards/:id`, the entity stored under the id-derived file name
carries `id` equal to the path parameter — any id in the request body is
overwritten — and an `updatedAt` stamp; hence a stored entity's id always
matches its storage key. -/
theorem put_handlers_stamp_id (files : FileStore) (id : String)
    (bodyP bodyC : JsValue) (nowIso : String) (vp vc : JsValue) :
    (validateProfile bodyP = .ok vp →
      ∃ p, storeGet (putProfileHandler files id bodyP nowIso).2 (profileFileName id) = some p ∧
        getProp p "id" = .ok (.str id) ∧
        getProp p "updatedAt" = .ok (.str nowIso)) ∧
    (validateCard bodyC = .ok vc →
      ∃ c, storeGet (putCardHandler files id bodyC nowIso).2 (cardFileName id) = some c ∧
        getProp c "id" = .ok (.str id) ∧
        getProp c "updatedAt" = .ok (.str nowIso)) := by
  constructor
  · intro hv
    unfold putProfileHandler
    rw [hv]
    dsimp only
    unfold writeFile
    exact ⟨_, storeGet_storeSet_self _ _ _,
      (stamped_lookup vp id nowIso).1, (stamped_lookup vp id nowIso).2⟩
  · intro hv
    unfold putCardHandler
    rw [hv]
    dsimp only
    unfold writeFile
    exact ⟨_, storeGet_storeSet_self _ _ _,
      (stamped_lookup vc id nowIso).1, (stamped_lookup vc id nowIso).2⟩

/-- Witness for C10: both request bodies carry `id: "other"`, yet the stored
profile and card end up with id `"p2"`, the path parameter, plus the stamp. -/
theorem put_handlers_stamp_id_witness :
    (∃ p, storeGet (putProfileHandler [] "p2"
        (.obj [("id", .str "other"), ("name", .str "N"),
               ("zones", .obj
                 [("left", .obj [("width", .num 1), ("height", .num 2)]),
                  ("center", .obj [("width", .num 1), ("height", .num 2)]),
                  ("right", .obj [("width", .num 1), ("height", .num 2)])])])
        "now2").2 (profileFileName "p2") = some p ∧
      getProp p "id" = .ok (.str "p2") ∧
      getProp p "updatedAt" = .ok (.str "now2")) ∧
    (∃ c, storeGet (putCardHandler [] "p2"
        (.obj [("id", .str "other"), ("type", .str "text"), ("config", .obj [])])
        "now2").2 (cardFileName "p2") = some c ∧
      getProp c "id" = .ok (.str "p2") ∧
      getProp c "updatedAt" = .ok (.str "now2")) :=
  ⟨(put_handlers_stamp_id [] "p2"
      (.obj [("id", .str "other"), ("name", .str "N"),
             ("zones", .obj
               [("left", .obj [("width", .num 1), ("height", .num 2)]),
                ("center", .obj [("width", .num 1), ("height", .num 2)]),
                ("right", .obj [("width", .num 1), ("height", .num 2)])])])
      (.obj [("id", .str "other"), ("type", .str "text"), ("config", .obj [])])
      "now2"
      (.obj [("id", .str "other"), ("name", .str "N"),
             ("zones", .obj
               [("left", .obj [("width", .num 1), ("height", .num 2), ("cards", .arr [])]),
                ("center", .obj [("width", .num 1), ("height", .num 2), ("cards", .arr [])]),
                ("right", .obj [("width", .num 1), ("height", .num 2), ("cards", .arr [])])])])
      (.obj [("id", .str "other"), ("type", .str "text"), ("config", .obj [])])).1 rfl,
   (put_handlers_stamp_id [] "p2"
      (.obj [("id", .str "other"), ("name", .str "N"),
             ("zones", .obj
               [("left", .obj [("width", .num 1), ("height", .num 2)]),
                ("center", .obj [("width", .num 1), ("height", .num 2)]),
                ("right", .obj [("width", .num 1), ("height", .num 2)])])])
      (.obj [("id", .str "other"), ("type", .str "text"), ("config", .obj [])])
      "now2"
      (.obj [("id", .str "other"), ("name", .str "N"),
             ("zones", .obj
               [("left", .obj [("width", .num 1), ("height", .num 2), ("cards", .arr [])]),
                ("center", .obj [("width", .num 1), ("height", .num 2), ("cards", .arr [])]),
                ("right", .obj [("width", .num 1), ("height", .num 2), ("cards", .arr [])])])])
      (.obj [("id", .str "other"), ("type", .str "text"), ("config", .obj [])])).2 rfl⟩

end Projector
